import Mathlib

/-!
Shallow embedding of `src/ci/llm_review.py` (an LLM-based CI code-review
helper) and verification of its specification claims.

The script is a linear pipeline: read a manifest of changed files, filter
out EF Core migration artifacts, build a combined git diff, send it to a
chat-completion endpoint, and write a markdown report.  External effects
(filesystem, the git subprocess, the HTTP call) are modelled as explicit
parameters of an environment record; Python exceptions that the script
does not catch are modelled as explicit crash outcomes.
-/

namespace LlmReview

/-! ## JSON values and `json.dumps(..., indent=2)`

The response body of the model endpoint is JSON.  Numeric values are
modelled as integers (no claim depends on float formatting).
-/

inductive JVal where
  | null : JVal
  | bool : Bool → JVal
  | num : Int → JVal
  | str : String → JVal
  | arr : List JVal → JVal
  | obj : List (String × JVal) → JVal

/-- Whether a JSON value is a string (a Python `str`). -/
def JVal.isStr : JVal → Bool
  | .str _ => true
  | _ => false

/-- Hexadecimal digit, lowercase, as produced by `json.dumps` escapes. -/
def hexDigit (n : Nat) : Char :=
  if n < 10 then Char.ofNat (48 + n) else Char.ofNat (87 + n)

/-- Four-digit lowercase hex rendering used in JSON escapes. -/
def hex4 (n : Nat) : String :=
  String.mk [hexDigit (n / 4096 % 16), hexDigit (n / 256 % 16),
             hexDigit (n / 16 % 16), hexDigit (n % 16)]

/-- Escape of one character inside a JSON string, following
`json.dumps` with its default `ensure_ascii=True`: characters outside
the printable ASCII range 0x20..0x7e are escaped, non-BMP characters as
surrogate pairs. -/
def jsonEscChar (c : Char) : String :=
  if c = '"' then "\\\""
  else if c = '\\' then "\\\\"
  else if c = '\n' then "\\n"
  else if c = '\t' then "\\t"
  else if c = '\x0d' then "\\r"
  else if c = '\x08' then "\\b"
  else if c = '\x0c' then "\\f"
  else if c.toNat < 32 || c.toNat > 126 then
    if c.toNat < 65536 then "\\u" ++ hex4 c.toNat
    else
      let m := c.toNat - 65536
      "\\u" ++ hex4 (55296 + m / 1024) ++ "\\u" ++ hex4 (56320 + m % 1024)
  else String.mk [c]

/-- JSON string escaping. -/
def jsonEsc (s : String) : String :=
  String.join (s.toList.map jsonEscChar)

/-- Two spaces per indent level, the `indent=2` setting. -/
def jsonIndent (lvl : Nat) : String :=
  String.mk (List.replicate (2 * lvl) ' ')

mutual

/-- Rendering of `json.dumps(v, indent=2)` at a given indent level. -/
def dumpsAux : JVal → Nat → String
  | .null, _ => "null"
  | .bool true, _ => "true"
  | .bool false, _ => "false"
  | .num n, _ => toString n
  | .str s, _ => "\"" ++ jsonEsc s ++ "\""
  | .arr [], _ => "[]"
  | .arr (x :: xs), lvl =>
      "[\n" ++ String.intercalate ",\n" (dumpsList (x :: xs) (lvl + 1)) ++
      "\n" ++ jsonIndent lvl ++ "]"
  | .obj [], _ => "\x7b\x7d"
  | .obj (f :: fs), lvl =>
      "\x7b\n" ++ String.intercalate ",\n" (dumpsFields (f :: fs) (lvl + 1)) ++
      "\n" ++ jsonIndent lvl ++ "\x7d"

/-- Rendered elements of a JSON array, each prefixed by its indent. -/
def dumpsList : List JVal → Nat → List String
  | [], _ => []
  | x :: xs, lvl => (jsonIndent lvl ++ dumpsAux x lvl) :: dumpsList xs lvl

/-- Rendered fields of a JSON object, each prefixed by its indent. -/
def dumpsFields : List (String × JVal) → Nat → List String
  | [], _ => []
  | (k, v) :: fs, lvl =>
      (jsonIndent lvl ++ "\"" ++ jsonEsc k ++ "\": " ++ dumpsAux v lvl) :: dumpsFields fs lvl

end

/-- Model of `json.dumps(v, indent=2)`. -/
def dumps (v : JVal) : String := dumpsAux v 0

/-! ## Python string helpers -/

/-- The characters `str.strip()` removes (Python string whitespace). -/
def isPyWs (c : Char) : Bool :=
  c = ' ' || c = '\t' || c = '\n' || c = '\x0d' || c = '\x0b' || c = '\x0c'

/-- Python method `s.strip()`. -/
def pyStrip (s : String) : String :=
  String.mk (((s.toList.dropWhile isPyWs).reverse.dropWhile isPyWs).reverse)

/-- `not s.strip()`: the string is empty or whitespace-only, i.e. falsy
after stripping. -/
def isBlank (s : String) : Bool :=
  s.toList.all isPyWs

/-- Substring test, Python `needle in haystack` on strings. -/
def strContainsSub (hay needle : String) : Bool :=
  go hay.toList needle.toList
where
  go : List Char → List Char → Bool
    | [], ns => ns.isEmpty
    | h :: t, ns => ns.isPrefixOf (h :: t) || go t ns

/-- Python `s.endswith(suffixStr)`. -/
def strEndsWith (s suffixStr : String) : Bool :=
  suffixStr.toList.isSuffixOf s.toList

/-- Python `p.replace("\\", "/")`.  Pattern and replacement are single
characters, so the replacement is a per-character substitution. -/
def normSep (p : String) : String :=
  String.mk (p.toList.map fun c => if c = '\\' then '/' else c)

/-! ## `read_changed_files` -/

/-- Model of `read_changed_files(path)`: if the manifest file does not exist the
result is `[]`; otherwise each line is stripped and blank lines are
dropped.  The filesystem is modelled by the existence flag and the list
of raw lines of the file. -/
def read_changed_files (fileExists : Bool) (rawLines : List String) : List String :=
  if fileExists then
    ((rawLines.map pyStrip).filter fun l => l ≠ "")
  else []

/-! ## `filter_out_migrations` -/

/-- Model of `filter_out_migrations(files)`: drop a path when its
separator-normalized form contains `"/Migrations/"` or ends with
`"ModelSnapshot.cs"`; otherwise keep the original path.  Order of the
survivors is the input order. -/
def filter_out_migrations : List String → List String
  | [] => []
  | p :: rest =>
    let norm := normSep p
    if strContainsSub norm "/Migrations/" then
      filter_out_migrations rest
    else if strEndsWith norm "ModelSnapshot.cs" then
      filter_out_migrations rest
    else
      p :: filter_out_migrations rest

/-- The keep-predicate of the filter, for stating order preservation. -/
def keepPath (p : String) : Bool :=
  !(strContainsSub (normSep p) "/Migrations/") &&
  !(strEndsWith (normSep p) "ModelSnapshot.cs")

/-! ## `get_diff_for_files`

One `subprocess.check_output` call per path.  The call either returns
diff text, raises `CalledProcessError` (nonzero git exit status, the
only exception the loop catches), or raises an OS-level error such as
`FileNotFoundError` when the git tool is absent, which the loop does not
catch and which therefore propagates.
-/

inductive DiffOutcome where
  | ok : String → DiffOutcome
  | exitFailure : DiffOutcome
  | osError : DiffOutcome

/-- The loop body of `get_diff_for_files`: build the per-file blocks in
order; `Except.error` models an uncaught OS-level exception escaping the
function. -/
def diffTexts (diff : String → DiffOutcome) : List String → Except Unit (List String)
  | [] => Except.ok []
  | path :: rest =>
    if path = "" then diffTexts diff rest
    else
      match diff path with
      | DiffOutcome.osError => Except.error ()
      | DiffOutcome.exitFailure => diffTexts diff rest
      | DiffOutcome.ok d =>
        match diffTexts diff rest with
        | Except.error e => Except.error e
        | Except.ok ds =>
          Except.ok (if isBlank d then ds
            else ("### File: " ++ path ++ "\n```diff\n" ++ d ++ "\n```") :: ds)

/-- Model of `get_diff_for_files(file_list)`: the blocks joined by blank lines,
or the propagated uncaught exception. -/
def get_diff_for_files (diff : String → DiffOutcome) (file_list : List String) :
    Except Unit String :=
  match diffTexts diff file_list with
  | Except.error e => Except.error e
  | Except.ok ds => Except.ok (String.intercalate "\n\n" ds)

/-! ## `call_llm` -/

/-- A Python exception value: its type name and its message text. -/
structure PyExn where
  typeName : String
  text : String

/-- Outcome of `requests.post` followed by `raise_for_status()` and
`.json()`: either some exception was raised, or a parsed JSON body. -/
inductive HttpOutcome where
  | raise : PyExn → HttpOutcome
  | ok : JVal → HttpOutcome

/-- Python subscript `v[k]` with a string key: succeeds only on a dict that has
the key; on every other value it raises `KeyError` or `TypeError`. -/
def pyIndexStr (v : JVal) (k : String) : Option JVal :=
  match v with
  | JVal.obj fields => fields.lookup k
  | _ => none

/-- Python subscript `v[0]` with integer key 0: indexes a list or a string
(one-character result); raises on an out-of-range index, on a dict
(string keys only, so `KeyError`), and on scalars (`TypeError`). -/
def pyIndexZero (v : JVal) : Option JVal :=
  match v with
  | JVal.arr xs => xs.head?
  | JVal.str s => (s.toList.head?).map fun c => JVal.str (String.mk [c])
  | _ => none

/-- The navigation `data["choices"][0]["message"]["content"]`; `none`
models the `(KeyError, IndexError, TypeError)` cases the code catches. -/
def extractContent (data : JVal) : Option JVal :=
  (((pyIndexStr data "choices").bind pyIndexZero).bind
      fun m => pyIndexStr m "message").bind
    fun m => pyIndexStr m "content"

/-- The fallback text returned on a failed navigation, embedding the
pretty-printed payload. -/
def unexpectedResponseMsg (data : JVal) : String :=
  "LLM returned an unexpected response structure:\n\n```json\n" ++ dumps data ++ "\n```"

/-- Model of `call_llm(prompt)`: post the prompt; a raised exception propagates;
otherwise extract the first choice content, falling back to the
diagnostic dump when navigation raises.  The returned Python value is
whatever the navigation produced, which need not be a string. -/
def call_llm (post : String → HttpOutcome) (prompt : String) : Except PyExn JVal :=
  match post prompt with
  | HttpOutcome.raise ex => Except.error ex
  | HttpOutcome.ok data =>
    Except.ok (match extractContent data with
      | some v => v
      | none => JVal.str (unexpectedResponseMsg data))

/-! ## The prompt (`textwrap.dedent` of the f-string) -/

/-- Line is entirely whitespace in the `^[ \t]+$` sense. -/
def wsOnlyLine (l : String) : Bool :=
  l ≠ "" && l.toList.all fun c => c = ' ' || c = '\t'

/-- Margin candidate of a line: its leading run of spaces and tabs,
present only when the line has a character outside that set. -/
def marginOf (l : String) : Option (List Char) :=
  if l.toList.all (fun c => c = ' ' || c = '\t') then none
  else some (l.toList.takeWhile fun c => c = ' ' || c = '\t')

/-- Longest common leading run of two candidate margins. -/
def commonStart : List Char → List Char → List Char
  | a :: as, b :: bs => if a = b then a :: commonStart as bs else []
  | _, _ => []

/-- Model of `textwrap.dedent(text)`: whitespace-only lines are normalized to
empty, the common margin of the remaining lines is computed, and that
margin is removed from every line that starts with it. -/
def pyDedent (text : String) : String :=
  let lines := (text.split (· = '\n')).map fun l => if wsOnlyLine l then "" else l
  let margin :=
    match lines.filterMap marginOf with
    | [] => []
    | m :: ms => ms.foldl commonStart m
  String.intercalate "\n"
    (lines.map fun l =>
      if margin.isPrefixOf l.toList then String.mk (l.toList.drop margin.length) else l)

/-- The f-string of step 4 of `main`, before dedenting, with the diff
block interpolated. -/
def promptTemplate (diff_block : String) : String :=
  "\n        You are performing a code review for a C# ASP.NET Core API project\n        and its CI/CD pipeline configuration.\n\n        Focus your review on:\n        - Correctness and potential bugs\n        - Security and input validation\n        - Performance, async, and resource usage\n        - Testability and maintainability\n        - CI/CD and Dockerfile/Jenkinsfile best practices\n\n        IMPORTANT:\n        - Ignore EF Core migration files; they were filtered out already.\n        - If the code looks reasonable overall, still highlight any potential risks or improvements.\n\n        For each issue, use this exact format:\n\n        - [SEVERITY: LOW|MEDIUM|HIGH] Short descriptive title\n          - File: <file-path>\n          - Description: <what is wrong and why it matters>\n          - Suggestion: <specific improvement or code change>\n\n        If there are no significant issues worth mentioning, write:\n        \"No major issues found in the reviewed changes.\"\n\n        Review the following diffs between origin/main and the current branch:\n\n        " ++ diff_block ++ "\n        "

/-- The prompt passed to `call_llm`. -/
def buildPrompt (diff_block : String) : String :=
  pyDedent (promptTemplate diff_block)

/-! ## `main` -/

/-- The short-circuit message written when no files survive the filter
(the two adjacent Python string literals concatenate). -/
def msgNoFiles : String :=
  "No non-migration files to review. EF Core migration files were intentionally ignored.\n"

/-- The short-circuit message written when the assembled diff is blank. -/
def msgNoDiffs : String :=
  "No diffs to review for the filtered file set.\n"

/-- The fixed markdown heading of a full report. -/
def reportHeading : String :=
  "# LLM Code Review (CodeLLaMA)\n\n"

/-- The synthesized review text when `call_llm` raises. -/
def errorReviewText (endpoint : String) (ex : PyExn) : String :=
  "Error calling local CodeLLaMA at " ++ endpoint ++ ":\n\n" ++
  ex.typeName ++ ": " ++ ex.text ++ "\n"

/-- The effectful surroundings of one run: the configured endpoint, the
manifest file, the git subprocess and the HTTP post. -/
structure Env where
  endpoint : String
  manifestExists : Bool
  manifestLines : List String
  diff : String → DiffOutcome
  post : String → HttpOutcome

/-- How a run of `main` (already past the argument-count check) ends:
a complete report written to the output file and a normal exit; a crash
after the output file was opened, leaving a partial file; or a crash
before the output file was opened, leaving no file. -/
inductive RunOutcome where
  | report : String → RunOutcome
  | crashMidWrite : String → RunOutcome
  | crashNoFile : RunOutcome

/-- Observable result of a run, with flags recording whether the git
subprocess and the model endpoint were ever invoked. -/
structure RunResult where
  outcome : RunOutcome
  llmCalled : Bool
  gitCalled : Bool

/-- Whether the diff loop performs at least one git invocation: at least
one path is nonempty at or before the first OS-level failure, and any
OS-level failure itself occurs at a nonempty path. -/
def anyGitInvocation (files : List String) : Bool :=
  files.any fun p => p != ""

/-- Model of `main` after the `len(sys.argv) != 3` check, on its environment.
Steps: read the manifest, filter migrations, short-circuit when nothing
remains; assemble the diff, short-circuit when it is blank; call the
model, converting a raised exception into the synthesized error text;
write heading, review text and a trailing newline.  An OS-level diff
failure escapes before the output file is opened; writing a non-string
review value raises `TypeError` after the heading was written. -/
def main (env : Env) : RunResult :=
  let all_files := read_changed_files env.manifestExists env.manifestLines
  let files := filter_out_migrations all_files
  if files.isEmpty then
    ⟨RunOutcome.report msgNoFiles, false, false⟩
  else
    match get_diff_for_files env.diff files with
    | Except.error _ => ⟨RunOutcome.crashNoFile, false, anyGitInvocation files⟩
    | Except.ok diff_block =>
      if isBlank diff_block then
        ⟨RunOutcome.report msgNoDiffs, false, anyGitInvocation files⟩
      else
        match call_llm env.post (buildPrompt diff_block) with
        | Except.error ex =>
          ⟨RunOutcome.report (reportHeading ++ errorReviewText env.endpoint ex ++ "\n"),
            true, anyGitInvocation files⟩
        | Except.ok v =>
          match v with
          | JVal.str content =>
            ⟨RunOutcome.report (reportHeading ++ content ++ "\n"),
              true, anyGitInvocation files⟩
          | _ => ⟨RunOutcome.crashMidWrite reportHeading, true, anyGitInvocation files⟩

end LlmReview

/-! ## Concrete instances used in witnesses and counterexamples -/

namespace LlmReview

/-- A response body whose navigation succeeds with a non-string content
value. -/
def C2badBody : JVal :=
  JVal.obj [("choices", JVal.arr [JVal.obj [("message", JVal.obj [("content", JVal.num 42)])]])]

/-- A diff oracle failing with a nonzero exit status on `x.cs` and with
an OS-level error elsewhere. -/
def C4wdiff : String → DiffOutcome :=
  fun p => if p = "x.cs" then DiffOutcome.exitFailure else DiffOutcome.ok "+w\n"

/-- A diff oracle raising an OS-level error on `y.cs`. -/
def C4odiff : String → DiffOutcome :=
  fun p => if p = "y.cs" then DiffOutcome.osError else DiffOutcome.ok "+v\n"

/-- A diff oracle raising an OS-level error on the first path. -/
def C4diff : String → DiffOutcome :=
  fun p => if p = "a.cs" then DiffOutcome.osError else DiffOutcome.ok "+line\n"

/-- An environment with an absent manifest. -/
def C5envA : Env :=
  ⟨"http://code.llama.local:8000/v1/chat/completions", false, [],
    fun _ => DiffOutcome.exitFailure, fun _ => HttpOutcome.raise ⟨"E", "m"⟩⟩

/-- An environment where the single retained file has a whitespace-only
diff. -/
def C5envB : Env :=
  ⟨"http://code.llama.local:8000/v1/chat/completions", true, ["Foo.cs"],
    fun _ => DiffOutcome.ok "  \n", fun _ => HttpOutcome.raise ⟨"E", "m"⟩⟩

/-- The well-formed scenario response body of the specification. -/
def C6wBody : JVal :=
  JVal.obj [("choices", JVal.arr [JVal.obj [("message",
    JVal.obj [("content", JVal.str "No major issues found in the reviewed changes.")])]])]

/-- The scenario environment: `Service.cs` with a non-empty diff and a
well-formed model response. -/
def C6wEnv : Env :=
  ⟨"http://code.llama.local:8000/v1/chat/completions", true, ["Service.cs"],
    fun _ => DiffOutcome.ok "+x\n", fun _ => HttpOutcome.ok C6wBody⟩

/-- An environment whose model call raises a connection error. -/
def C7wEnv : Env :=
  ⟨"http://code.llama.local:8000/v1/chat/completions", true, ["Service.cs"],
    fun _ => DiffOutcome.ok "+y\n",
    fun _ => HttpOutcome.raise ⟨"ConnectionError", "Connection refused"⟩⟩

/-- An environment with an absent manifest and a model call that would
raise. -/
def C3wEnv : Env :=
  ⟨"http://code.llama.local:8000/v1/chat/completions", false, [],
    fun _ => DiffOutcome.exitFailure,
    fun _ => HttpOutcome.raise ⟨"ConnectionError", "refused"⟩⟩

/-- An environment with one retained file whose diff invocation raises
an OS-level error, as when the git binary is absent. -/
def C3cEnv : Env :=
  ⟨"http://code.llama.local:8000/v1/chat/completions", true, ["Foo.cs"],
    fun _ => DiffOutcome.osError, fun _ => HttpOutcome.raise ⟨"E", "m"⟩⟩

/-- An environment whose manifest is non-empty but lists only migration
artifacts. -/
def C10wEnv : Env :=
  ⟨"http://code.llama.local:8000/v1/chat/completions", true,
    ["src/Migrations/0001_Init.cs", "AppDbModelSnapshot.cs"],
    fun _ => DiffOutcome.ok "+z\n", fun _ => HttpOutcome.raise ⟨"E", "m"⟩⟩

/-! ## Helper lemmas -/

/-- The filter is `List.filter` of its keep-predicate, so membership and
order facts reduce to library lemmas. -/
theorem filter_eq_filter (ps : List String) :
    filter_out_migrations ps = ps.filter keepPath := by
  induction ps with
  | nil => rfl
  | cons p rest ih =>
    cases h1 : strContainsSub (normSep p) "/Migrations/" <;>
      cases h2 : strEndsWith (normSep p) "ModelSnapshot.cs" <;>
        simp [filter_out_migrations, List.filter_cons, keepPath, h1, h2, ih]

/-- The separator substitution is idempotent at the character-list
level. -/
theorem sepChar_idem (l : List Char) :
    (l.map fun c => if c = '\\' then '/' else c).map (fun c => if c = '\\' then '/' else c) =
      l.map fun c => if c = '\\' then '/' else c := by
  induction l with
  | nil => rfl
  | cons c t ih =>
    by_cases hc : c = '\\' <;> simp [hc, ih]

/-- Separator normalization is idempotent. -/
theorem normSep_idem (p : String) : normSep (normSep p) = normSep p :=
  congrArg String.mk (sepChar_idem p.toList)

/-- The keep-decision of the filter only depends on the
separator-normalized path. -/
theorem keepPath_normSep (p : String) : keepPath (normSep p) = keepPath p := by
  unfold keepPath
  rw [normSep_idem]

/-- An absent manifest or one with only blank lines reads as the empty
list. -/
theorem read_changed_files_empty (ex : Bool) (lines : List String)
    (h : ex = false ∨ ∀ l ∈ lines, pyStrip l = "") :
    read_changed_files ex lines = [] := by
  rcases h with h | h
  · simp [read_changed_files, h]
  · cases ex with
    | false => simp [read_changed_files]
    | true =>
      have hf : (lines.map pyStrip).filter (fun l => l ≠ "") = [] := by
        rw [List.filter_eq_nil_iff]
        intro a ha
        rw [List.mem_map] at ha
        obtain ⟨l, hl, rfl⟩ := ha
        simp [h l hl]
      simpa [read_changed_files] using hf

/-- With no retained files, `main` writes the no-files message and
invokes neither git nor the model. -/
theorem main_noFiles (env : Env)
    (h : filter_out_migrations (read_changed_files env.manifestExists env.manifestLines) = []) :
    main env = ⟨RunOutcome.report msgNoFiles, false, false⟩ := by
  simp [main, h]

/-- When no diff invocation raises an OS-level error, the diff loop
completes normally. -/
theorem diffTexts_ok_of_no_osError (diff : String → DiffOutcome)
    (hdiff : ∀ p, diff p ≠ DiffOutcome.osError) (files : List String) :
    ∃ ds, diffTexts diff files = Except.ok ds := by
  induction files with
  | nil => exact ⟨[], rfl⟩
  | cons path rest ih =>
    obtain ⟨ds, hds⟩ := ih
    by_cases hp : path = ""
    · exact ⟨ds, by simp [diffTexts, hp, hds]⟩
    · cases hd : diff path with
      | osError => exact absurd hd (hdiff path)
      | exitFailure => exact ⟨ds, by simp [diffTexts, hp, hd, hds]⟩
      | ok d =>
        exact ⟨if isBlank d then ds
            else ("### File: " ++ path ++ "\n```diff\n" ++ d ++ "\n```") :: ds,
          by simp [diffTexts, hp, hd, hds]⟩

/-- When every file produces a whitespace-only diff, the loop collects
no blocks. -/
theorem diffTexts_all_blank (diff : String → DiffOutcome) (files : List String)
    (h : ∀ p ∈ files, ∃ d, diff p = DiffOutcome.ok d ∧ isBlank d = true) :
    diffTexts diff files = Except.ok [] := by
  induction files with
  | nil => rfl
  | cons path rest ih =>
    obtain ⟨d, hd, hb⟩ := h path (by simp)
    have hrest := ih fun p hp => h p (by simp [hp])
    by_cases hp : path = ""
    · simp [diffTexts, hp, hrest]
    · simp [diffTexts, hp, hd, hrest, hb]

/-- With retained files but only blank diffs, `main` writes the no-diffs
message and never invokes the model. -/
theorem main_noDiffs (env : Env)
    (hne : filter_out_migrations (read_changed_files env.manifestExists env.manifestLines) ≠ [])
    (hblank : ∀ p ∈ filter_out_migrations (read_changed_files env.manifestExists env.manifestLines),
       ∃ d, env.diff p = DiffOutcome.ok d ∧ isBlank d = true) :
    (main env).outcome = RunOutcome.report msgNoDiffs ∧ (main env).llmCalled = false := by
  have hd := diffTexts_all_blank env.diff _ hblank
  have hg : get_diff_for_files env.diff
      (filter_out_migrations (read_changed_files env.manifestExists env.manifestLines)) =
      Except.ok "" := by
    simp [get_diff_for_files, hd, String.intercalate]
  constructor <;> simp [main, hne, hg, isBlank]

/-- Once a non-blank diff bundle exists, `main` is determined by the
outcome of the model call. -/
theorem main_llm_branch (env : Env) (d : String)
    (hne : filter_out_migrations (read_changed_files env.manifestExists env.manifestLines) ≠ [])
    (hg : get_diff_for_files env.diff
      (filter_out_migrations (read_changed_files env.manifestExists env.manifestLines)) =
      Except.ok d)
    (hnb : isBlank d = false) :
    main env =
      match call_llm env.post (buildPrompt d) with
      | Except.error ex =>
        ⟨RunOutcome.report (reportHeading ++ errorReviewText env.endpoint ex ++ "\n"), true,
          anyGitInvocation
            (filter_out_migrations (read_changed_files env.manifestExists env.manifestLines))⟩
      | Except.ok (JVal.str content) =>
        ⟨RunOutcome.report (reportHeading ++ content ++ "\n"), true,
          anyGitInvocation
            (filter_out_migrations (read_changed_files env.manifestExists env.manifestLines))⟩
      | Except.ok _ =>
        ⟨RunOutcome.crashMidWrite reportHeading, true,
          anyGitInvocation
            (filter_out_migrations (read_changed_files env.manifestExists env.manifestLines))⟩ := by
  cases h : call_llm env.post (buildPrompt d) with
  | error ex => simp [main, hne, hg, hnb, h]
  | ok v => cases v <;> simp [main, hne, hg, hnb, h]

/-- A raised model call yields the synthesized error report. -/
theorem main_llmRaise (env : Env) (d : String) (ex : PyExn)
    (hne : filter_out_migrations (read_changed_files env.manifestExists env.manifestLines) ≠ [])
    (hg : get_diff_for_files env.diff
      (filter_out_migrations (read_changed_files env.manifestExists env.manifestLines)) =
      Except.ok d)
    (hnb : isBlank d = false)
    (hraise : env.post (buildPrompt d) = HttpOutcome.raise ex) :
    main env =
      ⟨RunOutcome.report (reportHeading ++ errorReviewText env.endpoint ex ++ "\n"), true,
        anyGitInvocation
          (filter_out_migrations (read_changed_files env.manifestExists env.manifestLines))⟩ := by
  have hcall : call_llm env.post (buildPrompt d) = Except.error ex := by
    simp [call_llm, hraise]
  rw [main_llm_branch env d hne hg hnb, hcall]

/-- A well-formed model response yields the heading plus its content. -/
theorem main_llmContent (env : Env) (d : String) (body : JVal) (content : String)
    (hne : filter_out_migrations (read_changed_files env.manifestExists env.manifestLines) ≠ [])
    (hg : get_diff_for_files env.diff
      (filter_out_migrations (read_changed_files env.manifestExists env.manifestLines)) =
      Except.ok d)
    (hnb : isBlank d = false)
    (hpost : env.post (buildPrompt d) = HttpOutcome.ok body)
    (hex : extractContent body = some (JVal.str content)) :
    main env =
      ⟨RunOutcome.report (reportHeading ++ content ++ "\n"), true,
        anyGitInvocation
          (filter_out_migrations (read_changed_files env.manifestExists env.manifestLines))⟩ := by
  have hcall : call_llm env.post (buildPrompt d) = Except.ok (JVal.str content) := by
    simp [call_llm, hpost, hex]
  rw [main_llm_branch env d hne hg hnb, hcall]

/-- A malformed model response yields the heading plus the fallback
dump. -/
theorem main_llmFallback (env : Env) (d : String) (body : JVal)
    (hne : filter_out_migrations (read_changed_files env.manifestExists env.manifestLines) ≠ [])
    (hg : get_diff_for_files env.diff
      (filter_out_migrations (read_changed_files env.manifestExists env.manifestLines)) =
      Except.ok d)
    (hnb : isBlank d = false)
    (hpost : env.post (buildPrompt d) = HttpOutcome.ok body)
    (hex : extractContent body = none) :
    main env =
      ⟨RunOutcome.report (reportHeading ++ unexpectedResponseMsg body ++ "\n"), true,
        anyGitInvocation
          (filter_out_migrations (read_changed_files env.manifestExists env.manifestLines))⟩ := by
  have hcall : call_llm env.post (buildPrompt d) =
      Except.ok (JVal.str (unexpectedResponseMsg body)) := by
    simp [call_llm, hpost, hex]
  rw [main_llm_branch env d hne hg hnb, hcall]

end LlmReview

/-! ## Claims -/

namespace LlmReview

/-- C1 (amended): every input path whose separator-normalized form
contains the substring "/Migrations/" — a Migrations segment preceded by
at least one character, in either separator style — is excluded by
`filter_out_migrations`; a path whose first segment is `Migrations` has
no preceding separator and is retained, so for the manifest entries
`Migrations/2024_Add.cs` and `Foo.cs` the filter retains both. -/
theorem C1_inner_migrations_excluded :
    (∀ ps p, p ∈ filter_out_migrations ps →
      strContainsSub (normSep p) "/Migrations/" = false)
    ∧ filter_out_migrations ["Migrations/2024_Add.cs", "Foo.cs"] =
        ["Migrations/2024_Add.cs", "Foo.cs"] := by
  constructor
  · intro ps p hp
    rw [filter_eq_filter] at hp
    have hk := (List.mem_filter.mp hp).2
    simp only [keepPath, Bool.and_eq_true, Bool.not_eq_true'] at hk
    exact hk.1
  · decide

/-- C1 witness: a concrete surviving path indeed has no inner
Migrations segment. -/
theorem C1_witness :
    strContainsSub (normSep "Foo.cs") "/Migrations/" = false :=
  C1_inner_migrations_excluded.1 ["src/Migrations/A.cs", "Foo.cs"] "Foo.cs" (by decide)

/-- C1 counterexample: the claim says the filter retains only `Foo.cs`
from the scenario manifest, but `Migrations/2024_Add.cs` — whose
Migrations segment is the first segment — survives the filter, because
the code tests the substring "/Migrations/" and the path has no leading
slash. -/
theorem C1_counterexample :
    "Migrations/2024_Add.cs" ∈
        filter_out_migrations ["Migrations/2024_Add.cs", "Foo.cs"] ∧
      filter_out_migrations ["Migrations/2024_Add.cs", "Foo.cs"] ≠ ["Foo.cs"] := by
  decide

/-- C2 (amended): for every response body on which the navigation
`choices[0].message.content` raises — missing `choices`, an empty list,
missing `message` or `content`, or an ill-typed intermediate value —
`call_llm` does not raise and returns a fallback string embedding the
full raw JSON payload pretty-printed; a successfully extracted content
value, however, is returned as-is even when it is not a string. -/
theorem C2_malformed_fallback (post : String → HttpOutcome) (prompt : String) (body : JVal)
    (hpost : post prompt = HttpOutcome.ok body)
    (hbad : extractContent body = none) :
    call_llm post prompt = Except.ok (JVal.str (unexpectedResponseMsg body)) := by
  simp [call_llm, hpost, hbad]

/-- C2 witness: a body without the `choices` key produces the fallback
string. -/
theorem C2_witness :
    call_llm (fun _ => HttpOutcome.ok (JVal.obj [])) "p" =
      Except.ok (JVal.str (unexpectedResponseMsg (JVal.obj []))) :=
  C2_malformed_fallback (fun _ => HttpOutcome.ok (JVal.obj [])) "p" (JVal.obj []) rfl rfl

/-- C2 counterexample: for the body whose first choice carries the
content value `42` — a body that does not expose a content string —
`call_llm` returns the bare number, not the fallback string the claim
requires. -/
theorem C2_counterexample :
    call_llm (fun _ => HttpOutcome.ok C2badBody) "p" = Except.ok (JVal.num 42) ∧
      (Except.ok (JVal.num 42) : Except PyExn JVal) ≠
        Except.ok (JVal.str (unexpectedResponseMsg C2badBody)) :=
  ⟨rfl, by simp⟩

/-- C3 (amended): for every invocation of `main` with two positional
arguments, provided no diff invocation raises an OS-level error (the
version-control tool is present) and every successfully extracted
review content is a string, exactly one of the three report outcomes
occurs and the output file is written: the no-files short-circuit
message, the no-diffs short-circuit message, or the fixed heading
followed by review text (the model content, its fallback dump, or the
synthesized error message when the call raises). -/
theorem C3_report_outcomes (env : Env)
    (hdiff : ∀ p, env.diff p ≠ DiffOutcome.osError)
    (hstr : ∀ pr body v, env.post pr = HttpOutcome.ok body →
      extractContent body = some v → JVal.isStr v = true) :
    ∃ c, (main env).outcome = RunOutcome.report c ∧
      (c = msgNoFiles ∨ c = msgNoDiffs ∨ ∃ rest, c = reportHeading ++ rest) := by
  by_cases hne :
      filter_out_migrations (read_changed_files env.manifestExists env.manifestLines) = []
  · exact ⟨msgNoFiles, by rw [main_noFiles env hne], Or.inl rfl⟩
  · obtain ⟨ds, hds⟩ := diffTexts_ok_of_no_osError env.diff hdiff
      (filter_out_migrations (read_changed_files env.manifestExists env.manifestLines))
    have hg : get_diff_for_files env.diff
        (filter_out_migrations (read_changed_files env.manifestExists env.manifestLines)) =
        Except.ok (String.intercalate "\n\n" ds) := by
      simp [get_diff_for_files, hds]
    cases hb : isBlank (String.intercalate "\n\n" ds) with
    | true =>
      refine ⟨msgNoDiffs, ?_, Or.inr (Or.inl rfl)⟩
      simp [main, hne, hg, hb]
    | false =>
      cases hp : env.post (buildPrompt (String.intercalate "\n\n" ds)) with
      | raise ex =>
        refine ⟨reportHeading ++ errorReviewText env.endpoint ex ++ "\n", ?_,
          Or.inr (Or.inr ⟨errorReviewText env.endpoint ex ++ "\n", ?_⟩)⟩
        · rw [main_llmRaise env _ ex hne hg hb hp]
        · rw [String.append_assoc]
      | ok body =>
        cases he : extractContent body with
        | none =>
          refine ⟨reportHeading ++ unexpectedResponseMsg body ++ "\n", ?_,
            Or.inr (Or.inr ⟨unexpectedResponseMsg body ++ "\n", ?_⟩)⟩
          · rw [main_llmFallback env _ body hne hg hb hp he]
          · rw [String.append_assoc]
        | some v =>
          have hv := hstr _ body v hp he
          cases v with
          | str s =>
            refine ⟨reportHeading ++ s ++ "\n", ?_,
              Or.inr (Or.inr ⟨s ++ "\n", ?_⟩)⟩
            · rw [main_llmContent env _ body s hne hg hb hp he]
            · rw [String.append_assoc]
          | null => simp [JVal.isStr] at hv
          | bool b => simp [JVal.isStr] at hv
          | num n => simp [JVal.isStr] at hv
          | arr xs => simp [JVal.isStr] at hv
          | obj fs => simp [JVal.isStr] at hv

/-- C3 witness: a run with an absent manifest completes with a written
report. -/
theorem C3_witness :
    ∃ c, (main C3wEnv).outcome = RunOutcome.report c ∧
      (c = msgNoFiles ∨ c = msgNoDiffs ∨ ∃ rest, c = reportHeading ++ rest) :=
  C3_report_outcomes C3wEnv (fun p h => by simp [C3wEnv] at h)
    (fun pr body v h _ => by simp [C3wEnv] at h)

/-- C3 counterexample: with one retained file and a diff invocation that
raises an OS-level error (git absent), `main` propagates the exception
before the output file is opened, so no output file is written and none
of the three report outcomes occurs — the claim that the file is always
written regardless of which stages fail is false. -/
theorem C3_counterexample : (main C3cEnv).outcome = RunOutcome.crashNoFile := rfl

/-- C4 (amended): a diff invocation that fails with a nonzero exit
status (`CalledProcessError`) for one path is silently skipped and does
not abort processing of the remaining paths; an invocation that raises
an OS-level error — as when the version-control tool itself is absent —
is not caught and aborts the whole assembly. -/
theorem C4_diff_failure_policy (diff : String → DiffOutcome) (path : String)
    (rest : List String) :
    (diff path = DiffOutcome.exitFailure →
      get_diff_for_files diff (path :: rest) = get_diff_for_files diff rest)
    ∧ (path ≠ "" → diff path = DiffOutcome.osError →
      get_diff_for_files diff (path :: rest) = Except.error ()) := by
  constructor
  · intro h
    by_cases hp : path = ""
    · simp [get_diff_for_files, diffTexts, hp]
    · simp [get_diff_for_files, diffTexts, hp, h]
  · intro hp h
    simp [get_diff_for_files, diffTexts, hp, h]

/-- C4 witness: skipping a nonzero-exit path and aborting on an OS-level
failure, at concrete inputs. -/
theorem C4_witness :
    (get_diff_for_files C4wdiff ["x.cs", "y.cs"] = get_diff_for_files C4wdiff ["y.cs"])
    ∧ get_diff_for_files C4odiff ["y.cs", "x.cs"] = Except.error () :=
  ⟨(C4_diff_failure_policy C4wdiff "x.cs" ["y.cs"]).1 rfl,
   (C4_diff_failure_policy C4odiff "y.cs" ["x.cs"]).2 (by decide) rfl⟩

/-- C4 counterexample: when the tool is absent the invocation for
`a.cs` raises an OS-level error and the whole assembly aborts —
`b.cs` is never processed — contradicting the claim that a failing
invocation, including absence of the tool, is silently skipped. -/
theorem C4_counterexample :
    get_diff_for_files C4diff ["a.cs", "b.cs"] = Except.error () := rfl

/-- C5: if the manifest file is absent or contains zero non-blank
lines, `main` writes the no-files short-circuit message and the model
endpoint is never invoked; and if there are retained files but every
one of them produces an empty or whitespace-only diff, `main` writes
the no-diffs short-circuit message and the model endpoint is never
invoked. -/
theorem C5_short_circuits (env : Env) :
    ((env.manifestExists = false ∨ ∀ l ∈ env.manifestLines, pyStrip l = "") →
      (main env).outcome = RunOutcome.report msgNoFiles ∧ (main env).llmCalled = false)
    ∧ (filter_out_migrations (read_changed_files env.manifestExists env.manifestLines) ≠ [] →
      (∀ p ∈ filter_out_migrations (read_changed_files env.manifestExists env.manifestLines),
        ∃ d, env.diff p = DiffOutcome.ok d ∧ isBlank d = true) →
      (main env).outcome = RunOutcome.report msgNoDiffs ∧ (main env).llmCalled = false) := by
  constructor
  · intro h
    have hempty := read_changed_files_empty env.manifestExists env.manifestLines h
    have hmain := main_noFiles env (by rw [hempty]; rfl)
    rw [hmain]
    exact ⟨rfl, rfl⟩
  · exact main_noDiffs env

/-- C5 witness: an absent manifest and a whitespace-only diff, at
concrete environments. -/
theorem C5_witness :
    ((main C5envA).outcome = RunOutcome.report msgNoFiles ∧ (main C5envA).llmCalled = false)
    ∧ ((main C5envB).outcome = RunOutcome.report msgNoDiffs ∧ (main C5envB).llmCalled = false) :=
  ⟨(C5_short_circuits C5envA).1 (Or.inl rfl),
   (C5_short_circuits C5envB).2 (by decide) (fun p _ => ⟨"  \n", rfl, by decide⟩)⟩

/-- C6: if the model endpoint returns a well-formed response — a JSON
object whose first choice carries a message content string — the output
file consists of the fixed markdown heading followed by exactly that
extracted content and a trailing newline. -/
theorem C6_wellformed_report (env : Env) (d : String) (body : JVal) (content : String)
    (hne : filter_out_migrations (read_changed_files env.manifestExists env.manifestLines) ≠ [])
    (hg : get_diff_for_files env.diff
      (filter_out_migrations (read_changed_files env.manifestExists env.manifestLines)) =
      Except.ok d)
    (hnb : isBlank d = false)
    (hpost : env.post (buildPrompt d) = HttpOutcome.ok body)
    (hex : extractContent body = some (JVal.str content)) :
    (main env).outcome = RunOutcome.report (reportHeading ++ content ++ "\n") := by
  rw [main_llmContent env d body content hne hg hnb hpost hex]

/-- C6 witness: the scenario of the specification — `Service.cs` with a
non-empty diff and the response whose content is the no-issues sentence
— yields exactly that sentence under the fixed heading. -/
theorem C6_witness :
    (main C6wEnv).outcome = RunOutcome.report
      (reportHeading ++ "No major issues found in the reviewed changes." ++ "\n") :=
  C6_wellformed_report C6wEnv "### File: Service.cs\n```diff\n+x\n\n```" C6wBody
    "No major issues found in the reviewed changes."
    (by decide) rfl (by decide) rfl rfl

/-- C7: if the call to the model endpoint raises any exception, `main`
catches it and writes a report consisting of the fixed heading and a
diagnostic message naming the configured endpoint together with the
exception type and text; the run completes normally (`RunOutcome.report`
models a normal return, hence a successful exit status). -/
theorem C7_llm_error_report (env : Env) (d : String) (ex : PyExn)
    (hne : filter_out_migrations (read_changed_files env.manifestExists env.manifestLines) ≠ [])
    (hg : get_diff_for_files env.diff
      (filter_out_migrations (read_changed_files env.manifestExists env.manifestLines)) =
      Except.ok d)
    (hnb : isBlank d = false)
    (hraise : env.post (buildPrompt d) = HttpOutcome.raise ex) :
    (main env).outcome =
      RunOutcome.report (reportHeading ++ errorReviewText env.endpoint ex ++ "\n") := by
  rw [main_llmRaise env d ex hne hg hnb hraise]

/-- C7 witness: a connection error is converted into the diagnostic
report naming the endpoint. -/
theorem C7_witness :
    (main C7wEnv).outcome = RunOutcome.report
      (reportHeading ++
        errorReviewText "http://code.llama.local:8000/v1/chat/completions"
          ⟨"ConnectionError", "Connection refused"⟩ ++ "\n") :=
  C7_llm_error_report C7wEnv "### File: Service.cs\n```diff\n+y\n\n```"
    ⟨"ConnectionError", "Connection refused"⟩ (by decide) rfl (by decide) rfl

/-- C8: every input path whose separator-normalized form ends with the
generated-file suffix `ModelSnapshot.cs` is excluded regardless of its
directory; every path matching neither the suffix nor the directory
marker is preserved; and the surviving paths form a sublist of the
input, hence appear in the same relative order. -/
theorem C8_suffix_and_order :
    (∀ ps p, p ∈ ps → strEndsWith (normSep p) "ModelSnapshot.cs" = true →
      p ∉ filter_out_migrations ps)
    ∧ (∀ ps p, p ∈ ps →
      strContainsSub (normSep p) "/Migrations/" = false →
      strEndsWith (normSep p) "ModelSnapshot.cs" = false →
      p ∈ filter_out_migrations ps)
    ∧ ∀ ps, (filter_out_migrations ps).Sublist ps := by
  refine ⟨?_, ?_, ?_⟩
  · intro ps p _ hsuf hcontra
    rw [filter_eq_filter] at hcontra
    have hk := (List.mem_filter.mp hcontra).2
    simp [keepPath, hsuf] at hk
  · intro ps p hmem h1 h2
    rw [filter_eq_filter]
    exact List.mem_filter.mpr ⟨hmem, by simp [keepPath, h1, h2]⟩
  · intro ps
    rw [filter_eq_filter]
    exact List.filter_sublist ps

/-- C8 witness: a snapshot file is dropped and an ordinary file
survives, at a concrete manifest. -/
theorem C8_witness :
    "AppModelSnapshot.cs" ∉ filter_out_migrations ["AppModelSnapshot.cs", "Program.cs"]
    ∧ "Program.cs" ∈ filter_out_migrations ["AppModelSnapshot.cs", "Program.cs"] :=
  ⟨C8_suffix_and_order.1 ["AppModelSnapshot.cs", "Program.cs"] "AppModelSnapshot.cs"
      (by decide) (by decide),
   C8_suffix_and_order.2.1 ["AppModelSnapshot.cs", "Program.cs"] "Program.cs"
      (by decide) (by decide) (by decide)⟩

/-- C9 (amended): path matching in the migration filter is performed
after separator normalization only — the keep/drop decision of a path
is invariant under rewriting backslashes to forward slashes — but no
case normalization is applied, so `src/migrations/A.cs` (lowercase) is
retained while `src/Migrations/A.cs` is excluded. -/
theorem C9_separator_normalization_only :
    (∀ p, (filter_out_migrations [p]).length = (filter_out_migrations [normSep p]).length)
    ∧ filter_out_migrations ["src/migrations/A.cs"] = ["src/migrations/A.cs"] := by
  constructor
  · intro p
    rw [filter_eq_filter, filter_eq_filter]
    cases h : keepPath p <;>
      simp [List.filter_cons, keepPath_normSep, h]
  · decide

/-- C9 counterexample: two paths differing only in the letter case of
the Migrations segment are filtered differently — the capitalized one
is excluded and the lowercase one survives — so matching is not
performed after case normalization. -/
theorem C9_counterexample :
    filter_out_migrations ["src/Migrations/A.cs"] = [] ∧
      filter_out_migrations ["src/migrations/A.cs"] = ["src/migrations/A.cs"] := by
  decide

/-- C10: if the manifest is non-empty but every listed path is excluded
by the migration filter, `main` writes the same no-files short-circuit
message as for an absent or empty manifest, and neither the git diff
tool nor the model endpoint is ever invoked. -/
theorem C10_all_filtered_short_circuit (env : Env)
    (_hne : read_changed_files env.manifestExists env.manifestLines ≠ [])
    (hall : filter_out_migrations (read_changed_files env.manifestExists env.manifestLines) = []) :
    main env = ⟨RunOutcome.report msgNoFiles, false, false⟩ :=
  main_noFiles env hall

/-- C10 witness: a manifest listing only migration artifacts
short-circuits without any git or model invocation. -/
theorem C10_witness : main C10wEnv = ⟨RunOutcome.report msgNoFiles, false, false⟩ :=
  C10_all_filtered_short_circuit C10wEnv (by decide) (by decide)

end LlmReview
